import Mathlib

/-!
Verification development for the interactive Slack app starter kit.

The repository's core is a request authorization and command orchestration
pipeline split across a few Lambda handlers:

* a Slack request verifier (HMAC signature + freshness),
* a channel / user / permission authorization gate,
* a command router over action strings,
* a service-trigger handler that runs a direct Lambda job or polls a Step
  Functions execution and posts running / success / failed status messages.

Each definition below is a shallow embedding of one source function, keeping
the source's name where Lean allows it.  External collaborators (crypto,
AWS clients, the Slack transport) are passed in as oracles; observable calls
to the Slack transport are recorded in an effect trace.
-/

namespace InteractiveSlackApp

/-!
### JavaScript value semantics

The verifier reads raw header values, so the embedding needs a few facts of
JavaScript semantics: a header lookup yields a string or `undefined`;
`Number.isNaN` tests for the NaN number value without any coercion; `<`
between a header value and a number converts the left side with `ToNumber`.
-/

/-- A JavaScript value as the verifier sees one: a missing header
(`undefined`), a string, or a number (`num none` models NaN). -/
inductive JsVal where
  | undef
  | str (s : String)
  | num (n : Option Int)
deriving DecidableEq

/-- Models `event.headers[name]`: the header's string when present, `undefined`
otherwise. -/
def jsHeader : Option String → JsVal
  | none => .undef
  | some s => .str s

/-- Models `Number.isNaN(v)`: true only when `v` is the number value NaN.  No
coercion is performed, so a string or `undefined` argument always gives
`false`. -/
def numberIsNaN : JsVal → Bool
  | .num none => true
  | _ => false

/-- Value of a nonempty all-digit character run, accumulator style; `none` as
soon as a non-digit appears. -/
def digitsValAux : List Char → Nat → Option Nat
  | [], acc => some acc
  | c :: cs, acc => if c.isDigit then digitsValAux cs (acc * 10 + (c.toNat - 48)) else none

/-- Decimal value of a character list: defined exactly on nonempty all-digit
lists. -/
def digitsVal : List Char → Option Nat
  | [] => none
  | c :: cs => digitsValAux (c :: cs) 0

/-- Models `ToNumber` on a string, restricted to the decimal-integer strings a
timestamp header carries: an optional sign followed by digits; the empty
string converts to 0; anything else is NaN (`none`). -/
def jsStringToInt (s : String) : Option Int :=
  match s.data with
  | [] => some 0
  | c :: cs =>
    if c = '-' then (digitsVal cs).map (fun n => -(n : Int))
    else if c = '+' then (digitsVal cs).map (fun n => (n : Int))
    else (digitsVal (c :: cs)).map (fun n => (n : Int))

/-- Models `ToNumber` of the JS values that occur here (`undefined` converts to
NaN). -/
def jsToNumber : JsVal → Option Int
  | .undef => none
  | .num n => n
  | .str s => jsStringToInt s

/-- JS `<` on numbers: any comparison involving NaN is false. -/
def jsLt : Option Int → Option Int → Bool
  | some x, some y => decide (x < y)
  | _, _ => false

/-- Template-literal rendering of a header value (`undefined` prints as the
string "undefined"). -/
def jsTemplate : Option String → String
  | none => "undefined"
  | some s => s

/-- Models `String.prototype.split` with a one-character separator, on character
lists: the separator never appears in a piece, and n separators give n + 1
pieces. -/
def splitOnCharList (sep : Char) : List Char → List (List Char)
  | [] => [[]]
  | c :: cs =>
    let rest := splitOnCharList sep cs
    if c = sep then [] :: rest
    else
      match rest with
      | [] => [[c]]
      | r :: rs => (c :: r) :: rs

/-- Models `signature.split('=')`. -/
def jsSplitEq (s : String) : List String :=
  (splitOnCharList '=' s.data).map String.mk

/-- Models `action_id.split('/')`. -/
def jsSplitSlash (s : String) : List String :=
  (splitOnCharList '/' s.data).map String.mk

/-- Character-list core of `String.prototype.startsWith`. -/
def listStartsWith : List Char → List Char → Bool
  | _, [] => true
  | [], _ :: _ => false
  | c :: cs, p :: ps => c = p && listStartsWith cs ps

/-- Models `s.startsWith(pat)`. -/
def jsStartsWith (s pat : String) : Bool :=
  listStartsWith s.data pat.data

/-!
### Signature verifier
-/

/-- The failure modes of `verifySlackRequest`: its four `throw new
Error(...)` sites, plus the TypeError raised by `signature.split('=')` when
the signature header is `undefined`. -/
inductive VerifyError where
  | malformedTimestamp
  | staleRequest
  | unknownVersion
  | signatureMismatch
  | typeError
deriving DecidableEq

/-- An inbound event as the verifier sees it: the two Slack headers (each
possibly absent) and the raw body string. -/
structure SlackEvent where
  tsHeader : Option String
  sigHeader : Option String
  body : String

/-- Embeds `verifySlackRequest`.  Here `hmac secret msg` stands for the hex HMAC-SHA256
digest of `msg` under `secret` (the crypto library is an external
collaborator); `nowSec` is `Math.floor(Date.now() / 1000)`; `tsscmp` is
constant-time string equality, i.e. equality.  `requestTimestampSec` stays a
raw header value throughout, exactly as in the source: the `Number.isNaN`
guard receives a string or `undefined`, the staleness comparison goes
through `ToNumber`, and the signed message interpolates the raw value. -/
def verifySlackRequest (hmac : String → String → String) (secret : String)
    (nowSec : Int) (ev : SlackEvent) : Except VerifyError Unit :=
  if numberIsNaN (jsHeader ev.tsHeader) then
    .error .malformedTimestamp
  else
    let fiveMinutesAgoSec : Int := nowSec - 60 * 5
    if jsLt (jsToNumber (jsHeader ev.tsHeader)) (some fiveMinutesAgoSec) then
      .error .staleRequest
    else
      match ev.sigHeader with
      | none => .error .typeError
      | some sig =>
        let parts := jsSplitEq sig
        let signatureVersion := parts.headD ""
        let signatureHash := parts[1]?
        if signatureVersion ≠ "v0" then
          .error .unknownVersion
        else
          let ourSignatureHash :=
            hmac secret (signatureVersion ++ ":" ++ jsTemplate ev.tsHeader ++ ":" ++ ev.body)
          match signatureHash with
          | none => .error .signatureMismatch
          | some h =>
            if h = "" then .error .signatureMismatch
            else if h = ourSignatureHash then .ok ()
            else .error .signatureMismatch

/-!
### Authorization gate
-/

/-- The normalized command shape shared by the handlers (`RequestDetails` in
the source): `permittedActions` starts empty and is filled in by the user
lookup. -/
structure RequestDetails where
  channelId : String
  userName : String
  permittedActions : List String
  action : String
  responseUrl : Option String := none
  inputValue : Option String := none

/-- The single failure mode of `verifyUserPermission` (`throw new
Error('User not permitted to perform action')`). -/
inductive PermissionError where
  | notPermitted
deriving DecidableEq

/-- Embeds `verifyUserPermission`: loops over `permittedActions` and returns at the
first entry for which `action === 'welcome' || action.startsWith(entry)`
holds; throws when the loop finishes without returning.  Note the welcome
test sits inside the loop body, so it is only ever evaluated when the list
is nonempty. -/
def verifyUserPermission (rd : RequestDetails) : Except PermissionError Unit :=
  if rd.permittedActions.any
      (fun permittedAction =>
        rd.action == "welcome" || jsStartsWith rd.action permittedAction) then
    .ok ()
  else
    .error .notPermitted

/-- Embeds `verifySlackChannel`: compares the configured channel id (the SSM
parameter value, passed in as an oracle) with the request's channel id. -/
def verifySlackChannel (channelParamValue requestChannelId : String) :
    Except Unit Unit :=
  if channelParamValue ≠ requestChannelId then .error () else .ok ()

/-- Embeds `verifySlackUser`: queries the bot-users table by user name (the table is
an oracle from user name to the stored `permittedActions`); throws when no
record exists, otherwise returns the record's `permittedActions`. -/
def verifySlackUser (table : String → Option (List String)) (userName : String) :
    Except Unit (List String) :=
  match table userName with
  | none => .error ()
  | some permittedActions => .ok permittedActions

/-!
### Request normalization
-/

/-- The decoded body of an inbound event, as `parseRequest` discriminates it:
a standard slash-command body, or an interactive `payload` body whose action
is read from `actions[0]`.  The query-string / JSON decoding itself is
abstracted into this shape. -/
inductive EventBody where
  | slash (channel_id user_name text : String)
  | payload (channel_id username : String) (actionValue : String)
      (response_url : String) (form_input : Option String)

/-- Embeds `parseRequest` (main handler): a standard body always normalizes to the
fixed action `'welcome'` with no input value; a payload body takes its
action from the first element of the payload's `actions` array and its input
value from the `form_input` block when present. -/
def parseRequest : EventBody → RequestDetails
  | .slash channel_id user_name _text =>
    { channelId := channel_id, userName := user_name, permittedActions := [],
      action := "welcome" }
  | .payload channel_id username actionValue response_url form_input =>
    { channelId := channel_id, userName := username, permittedActions := [],
      action := actionValue, responseUrl := some response_url,
      inputValue := form_input }

/-!
### Command router
-/

/-- What `processCommand` does for a recognized action, with the opaque block
payloads abstracted to the handler kind and its title. -/
inductive RouteTarget where
  | welcome
  | form (title : String)
  | submit (title : String)
deriving DecidableEq

/-- The failure mode of `processCommand`'s final else branch (`throw new
Error('Unhandled action received')`). -/
inductive CommandError where
  | unhandledAction
deriving DecidableEq

/-- Embeds `processCommand`: the if/else chain over `requestDetails.action`.
`welcome` renders the welcome menu; the two base actions render their input
form; the two `/submit` actions dispatch to `handleActionSubmit`; anything
else throws. -/
def processCommand (rd : RequestDetails) : Except CommandError RouteTarget :=
  if rd.action = "welcome" then .ok .welcome
  else if rd.action = "sample-lambda" then .ok (.form "Sample Lambda")
  else if rd.action = "sample-lambda/submit" then .ok (.submit "Sample Lambda")
  else if rd.action = "sample-sfn" then .ok (.form "Sample State Machine")
  else if rd.action = "sample-sfn/submit" then .ok (.submit "Sample State Machine")
  else .error .unhandledAction

/-- Models `actions[0].action_id.split('/')[0]` in the slack-auth `parseRequest`:
the action string's piece before the first `/`. -/
def actionBaseOf (action : String) : String :=
  (jsSplitSlash action).headD ""

/-!
### Main handler (authorization pipeline)
-/

/-- One verification step of the main handler, in source order, plus the
final command-processing step.  The handler's trace records the steps it
actually entered. -/
inductive CheckStep where
  | signature
  | channel
  | user
  | permission
  | process
deriving DecidableEq

/-- The handler's HTTP reply: `generateResponse` always uses status 200 and
carries the message in the body. -/
structure LambdaResponse where
  statusCode : Nat
  body : String
deriving DecidableEq

/-- Embeds `generateResponse`. -/
def generateResponse (body : String) : LambdaResponse :=
  { statusCode := 200, body := body }

/-- The message the main handler attaches to a verification failure, one per
`VerifyError`; the TypeError case is the JS runtime's own message. -/
def verifyErrorMessage : VerifyError → String
  | .malformedTimestamp => "Header X-Slack-Request-Timestamp did not have the expected type"
  | .staleRequest => "Stale request"
  | .unknownVersion => "Unknown signature version"
  | .signatureMismatch => "Signature mismatch"
  | .typeError => "TypeError: signature is undefined"

/-- The body the handler returns on command success:
`JSON.stringify(response)`, abstracted per route target (block payloads are
opaque). -/
def routeResponseBody : RouteTarget → String
  | .welcome => "welcome-blocks-json"
  | .form _ => "empty-json"
  | .submit _ => "empty-json"

/-- The main Lambda handler: Slack signature verification, request
normalization, channel check, user lookup, permission check, then command
processing — each `try`/`catch` short-circuits into a fixed response.  The
second component records which steps ran, in order. -/
def handler (hmac : String → String → String) (secret : String) (nowSec : Int)
    (channelParamValue : String) (table : String → Option (List String))
    (ev : SlackEvent) (body : EventBody) : LambdaResponse × List CheckStep :=
  match verifySlackRequest hmac secret nowSec ev with
  | .error e =>
    (generateResponse ("Slack verification failure: " ++ verifyErrorMessage e),
     [.signature])
  | .ok () =>
    let requestDetails := parseRequest body
    match verifySlackChannel channelParamValue requestDetails.channelId with
    | .error _ =>
      (generateResponse "You are not authorized to use this command here",
       [.signature, .channel])
    | .ok () =>
      match verifySlackUser table requestDetails.userName with
      | .error _ =>
        (generateResponse "You are not authorized to use this command here",
         [.signature, .channel, .user])
      | .ok permittedActions =>
        let requestDetails := { requestDetails with permittedActions := permittedActions }
        match verifyUserPermission requestDetails with
        | .error _ =>
          (generateResponse "You are not authorized to use this command here",
           [.signature, .channel, .user, .permission])
        | .ok () =>
          match processCommand requestDetails with
          | .error _ =>
            (generateResponse "Failed to process request. Please try again later",
             [.signature, .channel, .user, .permission, .process])
          | .ok target =>
            (generateResponse (routeResponseBody target),
             [.signature, .channel, .user, .permission, .process])

/-!
### Execution tracking
-/

/-- Models `buildHeaderBlocks title userName`: an opaque display payload; the
renderer is a pure function of its inputs, so the payload is modeled by
them. -/
structure HeaderBlocks where
  title : String
  userName : String
deriving DecidableEq

/-- The status enum consumed by `buildStatusBlocks`. -/
inductive Status where
  | running
  | success
  | failed
deriving DecidableEq

/-- Embeds `ServiceRequest` (the shape handed from `handleActionSubmit` to the
service-trigger handler via the async Lambda invocation). -/
structure ServiceRequest where
  action : String
  channelId : String
  messageTs : String
  headerBlocks : HeaderBlocks
  inputValue : Option String
deriving DecidableEq

/-- An observable call to the Slack transport or the AWS backends, in the
order the handlers make them.  `postMessage` records the channel posted to,
the status rendered, and the `ts` the transport returned; `updateMessage`
records the channel + `ts` the update is addressed to. -/
inductive SlackEffect where
  | postMessage (channel : String) (status : Status) (retTs : String)
  | deleteOriginal
  | invokeTrigger (sr : ServiceRequest)
  | startExec
  | describeExec
  | wait (ms : Nat)
  | updateMessage (channel ts : String) (status : Status) (detail : String)
deriving DecidableEq

/-- Models the details text `'```' + content + '```'`: a details block wraps its content verbatim in
a code fence. -/
def wrapDetails (content : String) : String :=
  "```" ++ content ++ "```"

/-- Embeds `handleActionSubmit`: builds the header blocks, posts the running status
message to the request's channel, and — when the transport reports ok —
deletes the original ephemeral form, builds the `ServiceRequest` whose
`messageTs` is exactly the `ts` returned by that post, and fires the async
trigger invocation.  `postTs`/`postOk` are the transport's reply to the
post.  Returns the effect trace and the `ServiceRequest` (`.error ()` is the
`throw` when the post is not ok). -/
def handleActionSubmit (rd : RequestDetails) (title : String)
    (postTs : String) (postOk : Bool) :
    List SlackEffect × Except Unit ServiceRequest :=
  let headerBlocks : HeaderBlocks := ⟨title, rd.userName⟩
  if postOk then
    let serviceRequest : ServiceRequest :=
      { action := rd.action, channelId := rd.channelId, messageTs := postTs,
        headerBlocks := headerBlocks, inputValue := rd.inputValue }
    ([.postMessage rd.channelId .running postTs, .deleteOriginal,
      .invokeTrigger serviceRequest],
     .ok serviceRequest)
  else
    ([.postMessage rd.channelId .running postTs], .error ())

/-- One `describeExecution` result. -/
structure SfnExec where
  status : String
  output : String
deriving DecidableEq

/-- How a run of the service-trigger handler ends: a normal return, the
`throw` when a `chat.update` reply is not ok, the `throw` of the final else
branch, or exhaustion of the poll fuel (a modeling bound for the source's
unbounded `while` loop). -/
inductive ServiceOutcome where
  | completed
  | updateFailed
  | unhandledAction
  | timedOut
deriving DecidableEq

/-- Embeds `handleServiceSuccess`: one `chat.update` addressed to the
`ServiceRequest`'s channel + `messageTs`, rendering the success status and
the job output wrapped verbatim in a details block; throws when the
transport reply is not ok. -/
def handleServiceSuccess (content : String) (sr : ServiceRequest)
    (updateOk : Bool) : List SlackEffect × ServiceOutcome :=
  ([.updateMessage sr.channelId sr.messageTs .success (wrapDetails content)],
   if updateOk then .completed else .updateFailed)

/-- Embeds `handleServiceError`: one `chat.update` addressed to the
`ServiceRequest`'s channel + `messageTs`, rendering the failed status and
the error's message in a details block; throws when the transport reply is
not ok. -/
def handleServiceError (errorMessage : String) (sr : ServiceRequest)
    (updateOk : Bool) : List SlackEffect × ServiceOutcome :=
  ([.updateMessage sr.channelId sr.messageTs .failed (wrapDetails errorMessage)],
   if updateOk then .completed else .updateFailed)

/-- The `while (execution.status === 'RUNNING')` loop.  `describe i` is the
result of the i-th `describeExecution` call; the call for index `i` has
already been made when the loop test runs, so each iteration contributes a
500 ms wait and one more describe call to the trace.  `fuel` bounds the
number of loop tests (the source imposes no bound); `none` means the bound
was hit while still running. -/
def pollLoop (describe : Nat → SfnExec) : Nat → Nat → List SlackEffect × Option SfnExec
  | 0, _ => ([], none)
  | fuel + 1, i =>
    let execution := describe i
    if execution.status = "RUNNING" then
      let rest := pollLoop describe fuel (i + 1)
      (SlackEffect.wait 500 :: SlackEffect.describeExec :: rest.1, rest.2)
    else
      ([], some execution)

/-- The service-trigger handler: routes on `serviceRequest.action`.  The
`sample-lambda/submit` branch invokes the job (`lambdaResult` is the
invocation's payload or thrown error) and reports success or failure; the
`sample-sfn/submit` branch starts the execution, polls it, throws
`Error(execution.output)` when the terminal status is not `SUCCEEDED`
(caught into the failure report), and reports success otherwise; any other
action throws uncaught.  Each branch's body runs inside `try`/`catch`, so a
throw from `handleServiceSuccess` is itself caught and re-reported through
`handleServiceError` with the throw's message. -/
def serviceHandler (sr : ServiceRequest) (lambdaResult : Except String String)
    (describe : Nat → SfnExec) (fuel : Nat) (updateOk : Bool) :
    List SlackEffect × ServiceOutcome :=
  if sr.action = "sample-lambda/submit" then
    match lambdaResult with
    | .ok payload =>
      let success := handleServiceSuccess payload sr updateOk
      match success.2 with
      | .completed => (success.1, .completed)
      | _ =>
        let failure :=
          handleServiceError "Failed to update message in Slack channel" sr updateOk
        (success.1 ++ failure.1, failure.2)
    | .error e => handleServiceError e sr updateOk
  else if sr.action = "sample-sfn/submit" then
    let polled := pollLoop describe fuel 0
    let trace := [SlackEffect.startExec, SlackEffect.describeExec] ++ polled.1
    match polled.2 with
    | none => (trace, .timedOut)
    | some execution =>
      if execution.status ≠ "SUCCEEDED" then
        let failure := handleServiceError execution.output sr updateOk
        (trace ++ failure.1, failure.2)
      else
        let success := handleServiceSuccess execution.output sr updateOk
        match success.2 with
        | .completed => (trace ++ success.1, .completed)
        | _ =>
          let failure :=
            handleServiceError "Failed to update message in Slack channel" sr updateOk
          (trace ++ success.1 ++ failure.1, failure.2)
  else
    ([], .unhandledAction)

/-- Per-effect check used to state C4: every message update in a trace must
be addressed to the given channel + ts; all other effects pass. -/
def updateTargetsOnly (channel ts : String) : SlackEffect → Bool
  | .updateMessage c t _ _ => c == channel && t == ts
  | _ => true

/-!
### Slack-auth variant of request normalization

The `app-stack.slack-auth.ts` handler normalizes the Bolt middleware body
into a richer shape that also carries `actionBase` and reads the form input
from `body.state?.values?.form_input?.input_value?.value ?? null`.
-/

/-- The normalized shape produced by the slack-auth `parseRequest`. -/
structure RequestDetailsAuth where
  channelId : String
  userName : String
  action : String
  actionBase : Option String := none
  responseUrl : String
  inputValue : Option String := none
deriving DecidableEq

/-- One element of an interactive payload's `actions` array. -/
structure ActionEntry where
  action_id : String
deriving DecidableEq

/-- The Bolt middleware body as the slack-auth `parseRequest` discriminates
it: a slash-command body carries a (truthy) `user_id`; anything else is an
interactive payload whose action is read from `actions[0]`. -/
inductive BoltBody where
  | slash (user_id channel_id user_name text response_url : String)
  | interactive (channel_id username : String) (actions : List ActionEntry)
      (response_url : String) (form_input : Option String)

/-- The slack-auth `parseRequest`: a body with a `user_id` always normalizes
to the fixed action `'welcome'` with no `actionBase` and no input value;
otherwise the action is `actions[0].action_id`, `actionBase` is that string
split at the first `/`, and the input value is the optionally-chained form
value.  `none` is returned when `actions` is empty (reading `actions[0]`
would crash). -/
def parseRequestAuth : BoltBody → Option RequestDetailsAuth
  | .slash _user_id channel_id user_name _text response_url =>
    some { channelId := channel_id, userName := user_name,
           action := "welcome", responseUrl := response_url }
  | .interactive channel_id username actions response_url form_input =>
    match actions with
    | [] => none
    | a :: _ =>
      some { channelId := channel_id, userName := username,
             action := a.action_id,
             actionBase := some (actionBaseOf a.action_id),
             responseUrl := response_url, inputValue := form_input }

deriving instance DecidableEq for Except

/-!
### Claims
-/

/-- C1 counterexample: for a known user whose stored `permittedActions` set
is empty, `verifyUserPermission` throws even for the action `welcome`,
because the welcome test sits inside the loop over `permittedActions` and
the loop body never runs. -/
theorem c1_counterexample :
    verifyUserPermission
      { channelId := "C1", userName := "alice", permittedActions := [],
        action := "welcome" } = .error .notPermitted := rfl

/-- C1 (amended): for every known user whose `permittedActions` set is
nonempty, the action `welcome` is authorized regardless of which entries the
set holds; `verifyUserPermission` returns without error. -/
theorem c1_welcome_authorized (rd : RequestDetails)
    (hne : rd.permittedActions ≠ []) (ha : rd.action = "welcome") :
    verifyUserPermission rd = .ok () := by
  cases hpa : rd.permittedActions with
  | nil => exact absurd hpa hne
  | cons p rest =>
    unfold verifyUserPermission
    rw [hpa]
    simp [ha]

/-- C1 witness: a concrete known user with a nonempty permitted set is
authorized for `welcome`. -/
theorem c1_welcome_authorized_witness :
    verifyUserPermission
      { channelId := "C1", userName := "alice",
        permittedActions := ["sample-lambda"], action := "welcome" }
      = .ok () :=
  c1_welcome_authorized _ (by decide) rfl

/-- Shape lemma: the `Number.isNaN` guard of `verifySlackRequest` receives a
string or `undefined`, so it is false for every event. -/
theorem numberIsNaN_header_false (ts : Option String) :
    numberIsNaN (jsHeader ts) = false := by
  cases ts <;> rfl

/-- Shape lemma: once the staleness test is false, `verifySlackRequest`
resolves to its signature phase, whose outcomes never include the staleness
or malformed-timestamp errors. -/
theorem verify_past_staleness (hmac : String → String → String)
    (secret : String) (nowSec : Int) (ev : SlackEvent)
    (hcmp : jsLt (jsToNumber (jsHeader ev.tsHeader)) (some (nowSec - 60 * 5)) = false) :
    verifySlackRequest hmac secret nowSec ev ≠ .error .staleRequest
    ∧ verifySlackRequest hmac secret nowSec ev ≠ .error .malformedTimestamp := by
  obtain ⟨tsH, sigH, body⟩ := ev
  simp only [verifySlackRequest, numberIsNaN_header_false, hcmp] at *
  simp only [Bool.false_eq_true, if_false]
  rcases sigH with _ | sig
  · constructor <;> intro hcontra <;> cases hcontra
  · constructor <;> intro hcontra <;>
      (repeat' split at hcontra) <;> cases hcontra

/-- C2: for every request whose timestamp header denotes a time more than
300 seconds before the verification time, `verifySlackRequest` fails with
the staleness error regardless of the signature header and of the HMAC
oracle; a timestamp at or after `now - 300s` (future times included) never
produces the staleness error. -/
theorem c2_staleness_window (hmac : String → String → String) (secret : String)
    (nowSec : Int) (ev : SlackEvent) (s : String) (t : Int)
    (hts : ev.tsHeader = some s) (hparse : jsStringToInt s = some t) :
    (t < nowSec - 300 →
      verifySlackRequest hmac secret nowSec ev = .error .staleRequest)
    ∧ (nowSec - 300 ≤ t →
      verifySlackRequest hmac secret nowSec ev ≠ .error .staleRequest) := by
  have hnum : jsToNumber (jsHeader ev.tsHeader) = some t := by
    rw [hts]; simpa [jsHeader, jsToNumber] using hparse
  constructor
  · intro hlt
    have hcmp : jsLt (jsToNumber (jsHeader ev.tsHeader)) (some (nowSec - 60 * 5)) = true := by
      rw [hnum]; simp [jsLt]; omega
    obtain ⟨tsH, sigH, body⟩ := ev
    simp only [verifySlackRequest, numberIsNaN_header_false, hcmp] at *
    simp
  · intro hge
    have hcmp : jsLt (jsToNumber (jsHeader ev.tsHeader)) (some (nowSec - 60 * 5)) = false := by
      rw [hnum]; simp [jsLt]; omega
    exact (verify_past_staleness hmac secret nowSec ev hcmp).1

/-- C2 witness: a concrete over-5-minutes-old timestamp is rejected as
stale even with a signature that would otherwise match. -/
theorem c2_staleness_window_witness :
    verifySlackRequest (fun _ _ => "x") "s" 1000
      ⟨some "600", some "v0=x", "b"⟩ = .error .staleRequest :=
  (c2_staleness_window (fun _ _ => "x") "s" 1000
      ⟨some "600", some "v0=x", "b"⟩ "600" 600 rfl (by decide)).1 (by decide)

/-- C6: the malformed-timestamp guard is dead code — `Number.isNaN` is
applied to the raw header value (a string or `undefined`, never a number),
so it is always false and `verifySlackRequest` can never fail with the
malformed-timestamp error, for any input whatsoever. -/
theorem c6_malformed_check_unreachable (hmac : String → String → String)
    (secret : String) (nowSec : Int) (ev : SlackEvent) :
    verifySlackRequest hmac secret nowSec ev ≠ .error .malformedTimestamp := by
  by_cases hcmp : jsLt (jsToNumber (jsHeader ev.tsHeader)) (some (nowSec - 60 * 5)) = true
  · obtain ⟨tsH, sigH, body⟩ := ev
    simp only [verifySlackRequest, numberIsNaN_header_false, hcmp] at *
    simp
  · exact (verify_past_staleness hmac secret nowSec ev
      (by simpa using hcmp)).2

/-- C6 witness: a request whose timestamp header is the non-numeric string
"not-a-number" sails straight past the malformed-timestamp guard — with a
signature computed over the garbage header it even verifies successfully. -/
theorem c6_malformed_check_unreachable_witness :
    verifySlackRequest (fun _ _ => "h") "s" 0
      ⟨some "not-a-number", some "v0=h", "b"⟩ = .ok ()
    ∧ verifySlackRequest (fun _ _ => "h") "s" 0
      ⟨some "not-a-number", some "v0=h", "b"⟩ ≠ .error .malformedTimestamp :=
  ⟨rfl, c6_malformed_check_unreachable (fun _ _ => "h") "s" 0
      ⟨some "not-a-number", some "v0=h", "b"⟩⟩

/-- C7 counterexample: with the signature header absent (and a fresh
timestamp), `verifySlackRequest` crashes with the TypeError from
`undefined.split('=')` — a different failure mode than the signature
mismatch the claim requires. -/
theorem c7_counterexample :
    verifySlackRequest (fun _ _ => "h") "secret" 0 ⟨some "0", none, "b"⟩
        = .error .typeError
    ∧ verifySlackRequest (fun _ _ => "h") "secret" 0 ⟨some "0", none, "b"⟩
        ≠ .error .signatureMismatch := by
  exact ⟨rfl, by decide⟩

/-- C7 (amended): when the signature header is present, a `v0` signature
whose hash part is missing (no text after `v0`), empty, or different from
the computed digest fails with the signature-mismatch error; an absent
signature header instead crashes with a TypeError before any signature
evaluation. -/
theorem c7_signature_mismatch (hmac : String → String → String)
    (secret : String) (nowSec : Int) (ts body : String)
    (hfresh : jsLt (jsStringToInt ts) (some (nowSec - 60 * 5)) = false) :
    (∀ sig h, jsSplitEq sig = ["v0", h] →
      h ≠ "" → h ≠ hmac secret ("v0:" ++ ts ++ ":" ++ body) →
      verifySlackRequest hmac secret nowSec ⟨some ts, some sig, body⟩
        = .error .signatureMismatch)
    ∧ (∀ sig, jsSplitEq sig = ["v0", ""] →
      verifySlackRequest hmac secret nowSec ⟨some ts, some sig, body⟩
        = .error .signatureMismatch)
    ∧ (∀ sig, jsSplitEq sig = ["v0"] →
      verifySlackRequest hmac secret nowSec ⟨some ts, some sig, body⟩
        = .error .signatureMismatch)
    ∧ verifySlackRequest hmac secret nowSec ⟨some ts, none, body⟩
        = .error .typeError := by
  have hfresh' : jsLt (jsToNumber (JsVal.str ts)) (some (nowSec - 300)) = false := by
    simpa [jsToNumber] using hfresh
  refine ⟨?_, ?_, ?_, ?_⟩
  · intro sig h hsplit hne hneq
    simp [verifySlackRequest, jsHeader, numberIsNaN, hsplit, jsTemplate,
      hfresh', hne, hneq]
  · intro sig hsplit
    simp [verifySlackRequest, jsHeader, numberIsNaN, hsplit, jsTemplate, hfresh']
  · intro sig hsplit
    simp [verifySlackRequest, jsHeader, numberIsNaN, hsplit, jsTemplate, hfresh']
  · simp [verifySlackRequest, jsHeader, numberIsNaN, hfresh']

/-- C7 witness: concrete mismatching and hash-less signatures are rejected
with the signature-mismatch error; the absent header gives the TypeError. -/
theorem c7_signature_mismatch_witness :
    verifySlackRequest (fun _ _ => "y") "s" 0 ⟨some "0", some "v0=x", "b"⟩
        = .error .signatureMismatch
    ∧ verifySlackRequest (fun _ _ => "y") "s" 0 ⟨some "0", some "v0", "b"⟩
        = .error .signatureMismatch
    ∧ verifySlackRequest (fun _ _ => "y") "s" 0 ⟨some "0", none, "b"⟩
        = .error .typeError := by
  have h := c7_signature_mismatch (fun _ _ => "y") "s" 0 "0" "b" (by decide)
  exact ⟨h.1 "v0=x" "x" (by decide) (by decide) (by decide),
         h.2.2.1 "v0" (by decide), h.2.2.2⟩

/-- C3: the three post-signature failure paths of the main handler — wrong
channel, unknown user, and missing permission — all return the identical
denial body "You are not authorized to use this command here", so the
response does not reveal which check failed; the checks run in the fixed
order signature, channel, user lookup, permission, and the recorded step
trace shows that a failure stops the pipeline before any later check. -/
theorem c3_uniform_denial_and_order (hmac : String → String → String)
    (secret : String) (nowSec : Int) (channelParamValue : String)
    (table : String → Option (List String)) (ev : SlackEvent) (body : EventBody) :
    (∀ e, verifySlackRequest hmac secret nowSec ev = .error e →
      handler hmac secret nowSec channelParamValue table ev body
        = (generateResponse ("Slack verification failure: " ++ verifyErrorMessage e),
           [.signature]))
    ∧ (verifySlackRequest hmac secret nowSec ev = .ok () →
      channelParamValue ≠ (parseRequest body).channelId →
      handler hmac secret nowSec channelParamValue table ev body
        = (generateResponse "You are not authorized to use this command here",
           [.signature, .channel]))
    ∧ (verifySlackRequest hmac secret nowSec ev = .ok () →
      channelParamValue = (parseRequest body).channelId →
      table (parseRequest body).userName = none →
      handler hmac secret nowSec channelParamValue table ev body
        = (generateResponse "You are not authorized to use this command here",
           [.signature, .channel, .user]))
    ∧ (∀ permittedActions,
      verifySlackRequest hmac secret nowSec ev = .ok () →
      channelParamValue = (parseRequest body).channelId →
      table (parseRequest body).userName = some permittedActions →
      verifyUserPermission
          { parseRequest body with permittedActions := permittedActions }
        = .error .notPermitted →
      handler hmac secret nowSec channelParamValue table ev body
        = (generateResponse "You are not authorized to use this command here",
           [.signature, .channel, .user, .permission])) := by
  refine ⟨?_, ?_, ?_, ?_⟩
  · intro e hsig
    simp [handler, hsig]
  · intro hsig hch
    simp [handler, hsig, verifySlackChannel, hch]
  · intro hsig hch huser
    simp [handler, hsig, verifySlackChannel, hch, verifySlackUser, huser]
  · intro permittedActions hsig hch huser hperm
    simp [handler, hsig, verifySlackChannel, hch, verifySlackUser, huser, hperm]

/-- C3 witness: a wrong channel on a well-signed request gives the generic
denial, with no user lookup or permission step performed. -/
theorem c3_uniform_denial_and_order_witness :
    handler (fun _ _ => "x") "s" 0 "C-OTHER" (fun _ => some ["sample-lambda"])
        ⟨some "0", some "v0=x", "b"⟩ (.slash "C1" "alice" "hello")
      = (generateResponse "You are not authorized to use this command here",
         [.signature, .channel]) :=
  (c3_uniform_denial_and_order (fun _ _ => "x") "s" 0 "C-OTHER"
      (fun _ => some ["sample-lambda"]) ⟨some "0", some "v0=x", "b"⟩
      (.slash "C1" "alice" "hello")).2.1 rfl (by decide)

/-- C8: a normalized command whose action matches none of the five
registered handlers makes `processCommand` fail with the unhandled-action
error, and the service-trigger handler likewise ends in its uncaught
unhandled-action throw without performing any transport call. -/
theorem c8_unknown_action (rd : RequestDetails)
    (h : rd.action ∉ ["welcome", "sample-lambda", "sample-lambda/submit",
                      "sample-sfn", "sample-sfn/submit"]) :
    processCommand rd = .error .unhandledAction
    ∧ ∀ (sr : ServiceRequest) (lambdaResult : Except String String)
        (describe : Nat → SfnExec) (fuel : Nat) (updateOk : Bool),
        sr.action = rd.action →
        serviceHandler sr lambdaResult describe fuel updateOk
          = ([], .unhandledAction) := by
  simp only [List.mem_cons, List.not_mem_nil, or_false, not_or] at h
  obtain ⟨h1, h2, h3, h4, h5⟩ := h
  constructor
  · simp [processCommand, h1, h2, h3, h4, h5]
  · intro sr lambdaResult describe fuel updateOk hact
    rw [serviceHandler.eq_def, hact]
    simp [h3, h5]

/-- C8 witness: the unregistered action "bogus" is rejected by both the
router and the service-trigger handler. -/
theorem c8_unknown_action_witness :
    processCommand
        { channelId := "C1", userName := "alice", permittedActions := [],
          action := "bogus" } = .error .unhandledAction
    ∧ serviceHandler
        { action := "bogus", channelId := "C1", messageTs := "1.2",
          headerBlocks := ⟨"T", "alice"⟩, inputValue := none }
        (.ok "out") (fun _ => ⟨"SUCCEEDED", "o"⟩) 3 true
      = ([], .unhandledAction) := by
  have h := c8_unknown_action
    { channelId := "C1", userName := "alice", permittedActions := [],
      action := "bogus" } (by decide)
  exact ⟨h.1, h.2 _ (.ok "out") (fun _ => ⟨"SUCCEEDED", "o"⟩) 3 true rfl⟩

/-- C9: the router maps "sample-lambda" to the form handler and
"sample-lambda/submit" to the submit handler, and the `actionBase` derived
by the slack-auth parser for "sample-lambda/submit" is "sample-lambda", the
piece of the action string before the first slash. -/
theorem c9_sample_lambda_routing :
    processCommand
        { channelId := "C1", userName := "alice", permittedActions := [],
          action := "sample-lambda", responseUrl := some "r" }
      = .ok (.form "Sample Lambda")
    ∧ processCommand
        { channelId := "C1", userName := "alice", permittedActions := [],
          action := "sample-lambda/submit", responseUrl := some "r" }
      = .ok (.submit "Sample Lambda")
    ∧ actionBaseOf "sample-lambda/submit" = "sample-lambda" :=
  ⟨rfl, rfl, rfl⟩

/-- C10: a slash-command style body (one carrying a `user_id`) always
normalizes to the action "welcome" with no input value, whatever the
command's text, in both normalizers; only an interactive payload yields a
different action, taken from the first element of its `actions` array. -/
theorem c10_slash_always_welcome :
    (∀ channel_id user_name text : String,
      parseRequest (.slash channel_id user_name text)
        = { channelId := channel_id, userName := user_name,
            permittedActions := [], action := "welcome",
            responseUrl := none, inputValue := none })
    ∧ (∀ channel_id username actionValue response_url : String,
        ∀ form_input : Option String,
      parseRequest (.payload channel_id username actionValue response_url form_input)
        = { channelId := channel_id, userName := username,
            permittedActions := [], action := actionValue,
            responseUrl := some response_url, inputValue := form_input })
    ∧ (∀ user_id channel_id user_name text response_url : String,
      parseRequestAuth (.slash user_id channel_id user_name text response_url)
        = some { channelId := channel_id, userName := user_name,
                 action := "welcome", actionBase := none,
                 responseUrl := response_url, inputValue := none })
    ∧ (∀ channel_id username response_url : String, ∀ a : ActionEntry,
        ∀ rest : List ActionEntry, ∀ form_input : Option String,
      parseRequestAuth
          (.interactive channel_id username (a :: rest) response_url form_input)
        = some { channelId := channel_id, userName := username,
                 action := a.action_id,
                 actionBase := some (actionBaseOf a.action_id),
                 responseUrl := response_url, inputValue := form_input }) :=
  ⟨fun _ _ _ => rfl, fun _ _ _ _ _ => rfl, fun _ _ _ _ _ => rfl,
   fun _ _ _ _ _ _ => rfl⟩

/-- The polling loop's trace consists only of waits and describe calls, so
any per-effect predicate true on those two effect kinds holds over the whole
poll trace. -/
theorem pollLoop_trace_all (describe : Nat → SfnExec) (p : SlackEffect → Bool)
    (hw : p (.wait 500) = true) (hd : p .describeExec = true) :
    ∀ fuel i, ((pollLoop describe fuel i).1.all p) = true := by
  intro fuel
  induction fuel with
  | zero => intro i; rfl
  | succ f ih =>
    intro i
    rw [pollLoop]
    split
    · simp [List.all_cons, hw, hd, ih (i + 1)]
    · rfl

/-- The polling loop stops at the first non-"RUNNING" describe result: with
`n` running polls before index `i + n`, the trace is `n` rounds of a 500 ms
wait plus one more describe call, and the result is that first non-running
execution. -/
theorem pollLoop_first_stop (describe : Nat → SfnExec) :
    ∀ (n fuel i : Nat),
      (∀ m, m < n → (describe (i + m)).status = "RUNNING") →
      (describe (i + n)).status ≠ "RUNNING" → n < fuel →
      pollLoop describe fuel i
        = ((List.replicate n [SlackEffect.wait 500, SlackEffect.describeExec]).flatten,
           some (describe (i + n))) := by
  intro n
  induction n with
  | zero =>
    intro fuel i hrun hstop hfuel
    match fuel, hfuel with
    | f + 1, _ =>
      rw [pollLoop]
      rw [if_neg (by simpa using hstop)]
      simp
  | succ n ih =>
    intro fuel i hrun hstop hfuel
    match fuel, hfuel with
    | f + 1, hf =>
      have h0 : (describe i).status = "RUNNING" := by
        simpa using hrun 0 (Nat.succ_pos n)
      rw [pollLoop, if_pos h0]
      have hrec := ih f (i + 1)
        (fun m hm => by
          have hidx : i + 1 + m = i + (m + 1) := by omega
          rw [hidx]
          exact hrun (m + 1) (Nat.succ_lt_succ hm))
        (by
          have hidx : i + 1 + n = i + (n + 1) := by omega
          rw [hidx]; exact hstop)
        (Nat.lt_of_succ_lt_succ hf)
      rw [hrec]
      have hidx : i + 1 + n = i + (n + 1) := by omega
      rw [hidx]
      simp [List.replicate_succ]

/-- C4: for every submit dispatch, the running status message is posted
first and its reference — the request's channel plus the `ts` the transport
returned — is captured into the `ServiceRequest` threaded to the
service-trigger handler; every later update the service-trigger handler
makes, under any job result, any poll history and any transport health, is
addressed to exactly that captured channel + ts. -/
theorem c4_message_ref_threading (rd : RequestDetails) (title postTs : String)
    (lambdaResult : Except String String) (describe : Nat → SfnExec)
    (fuel : Nat) (updateOk : Bool) :
    (handleActionSubmit rd title postTs true).1
      = [.postMessage rd.channelId .running postTs, .deleteOriginal,
         .invokeTrigger
           { action := rd.action, channelId := rd.channelId, messageTs := postTs,
             headerBlocks := ⟨title, rd.userName⟩, inputValue := rd.inputValue }]
    ∧ (handleActionSubmit rd title postTs true).2
      = .ok { action := rd.action, channelId := rd.channelId, messageTs := postTs,
              headerBlocks := ⟨title, rd.userName⟩, inputValue := rd.inputValue }
    ∧ (serviceHandler
          { action := rd.action, channelId := rd.channelId, messageTs := postTs,
            headerBlocks := ⟨title, rd.userName⟩, inputValue := rd.inputValue }
          lambdaResult describe fuel updateOk).1.all
        (updateTargetsOnly rd.channelId postTs) = true := by
  refine ⟨rfl, rfl, ?_⟩
  have hpoll := pollLoop_trace_all describe
    (updateTargetsOnly rd.channelId postTs) rfl rfl fuel 0
  rw [serviceHandler.eq_def]
  split
  · cases lambdaResult <;> cases updateOk <;>
      simp [handleServiceSuccess, handleServiceError, updateTargetsOnly]
  · split
    · rcases hp : (pollLoop describe fuel 0).2 with _ | execution
      · simp [hp, updateTargetsOnly, List.all_cons, hpoll, -List.all_eq_true]
      · by_cases hs : execution.status = "SUCCEEDED" <;>
          cases updateOk <;>
          simp [hp, hs, handleServiceSuccess, handleServiceError,
            updateTargetsOnly, List.all_cons, List.all_append, hpoll,
            -List.all_eq_true]
    · simp

/-- C5: for a workflow-kind job, the service-trigger handler starts the
execution and then polls its status, waiting a fixed 500 ms before each
re-poll, for exactly as long as the status is the "RUNNING" marker; when the
loop exits with a terminal status other than "SUCCEEDED" the run is reported
as failed, with the details block carrying the execution's `output` field
verbatim. -/
theorem c5_sfn_polling (sr : ServiceRequest) (lambdaResult : Except String String)
    (describe : Nat → SfnExec) (n fuel : Nat) (updateOk : Bool)
    (hact : sr.action = "sample-sfn/submit")
    (hrun : ∀ m, m < n → (describe m).status = "RUNNING")
    (hstop : (describe n).status ≠ "RUNNING")
    (hfail : (describe n).status ≠ "SUCCEEDED")
    (hfuel : n < fuel) :
    serviceHandler sr lambdaResult describe fuel updateOk
      = ([SlackEffect.startExec, SlackEffect.describeExec]
          ++ (List.replicate n [SlackEffect.wait 500, SlackEffect.describeExec]).flatten
          ++ [SlackEffect.updateMessage sr.channelId sr.messageTs .failed
               (wrapDetails (describe n).output)],
         if updateOk then .completed else .updateFailed) := by
  have hpoll := pollLoop_first_stop describe n fuel 0
    (fun m hm => by simpa using hrun m hm) (by simpa using hstop) hfuel
  rw [serviceHandler.eq_def, hact]
  simp only [hpoll, handleServiceError]
  simp [hfail, List.append_assoc]

/-- C5 witness: a concrete execution that reports "RUNNING" twice and then
terminates as "FAILED" with output "boom" is polled twice with 500 ms waits
and reported as a failure carrying "boom". -/
theorem c5_sfn_polling_witness :
    serviceHandler
        { action := "sample-sfn/submit", channelId := "C1", messageTs := "1.2",
          headerBlocks := ⟨"T", "alice"⟩, inputValue := some "42" }
        (.ok "unused")
        (fun i => if i < 2 then ⟨"RUNNING", ""⟩ else ⟨"FAILED", "boom"⟩) 4 true
      = ([SlackEffect.startExec, SlackEffect.describeExec]
          ++ (List.replicate 2 [SlackEffect.wait 500, SlackEffect.describeExec]).flatten
          ++ [SlackEffect.updateMessage "C1" "1.2" .failed (wrapDetails "boom")],
         .completed) := by
  have h := c5_sfn_polling
    { action := "sample-sfn/submit", channelId := "C1", messageTs := "1.2",
      headerBlocks := ⟨"T", "alice"⟩, inputValue := some "42" }
    (.ok "unused")
    (fun i => if i < 2 then ⟨"RUNNING", ""⟩ else ⟨"FAILED", "boom"⟩)
    2 4 true rfl
    (by
      intro m hm
      match m, hm with
      | 0, _ => rfl
      | 1, _ => rfl)
    (by decide) (by decide) (by decide)
  simpa using h

end InteractiveSlackApp
